import Mathlib

/-!
Shallow embedding of the Soft323x software real-time clock
(src/soft323x/soft323x.hpp) and verification of the frozen claims.

All machine bytes (`uint8_t`) are modelled as `Nat`; wherever the C++ code
can overflow a `uint8_t` the embedding reduces modulo 256 explicitly, and the
C bitwise complement `~mask` on a byte is written `255 ^^^ mask`.
-/

/-- Bit masks and constants from the source (public constants section). -/
def MASK_SECONDS : Nat := 0x7F
def MASK_MINUTES : Nat := 0x7F
def MASK_HOURS_12_HOURS : Nat := 0x1F
def MASK_HOURS_24_HOURS : Nat := 0x3F
def MASK_DAY : Nat := 0x07
def MASK_DATE : Nat := 0x3F
def MASK_MONTH : Nat := 0x1F
def MASK_YEAR : Nat := 0xFF

def BIT_HOUR_12_HOURS : Nat := 0x40
def BIT_HOUR_PM : Nat := 0x20
def BIT_MONTH_CENTURY : Nat := 0x80
def BIT_ALARM_MODE : Nat := 0x80
def BIT_ALARM_IS_DAY : Nat := 0x40
def BIT_CTRL_1_CONV : Nat := 0x20
def BIT_CTRL_1_RS2 : Nat := 0x10
def BIT_CTRL_1_RS1 : Nat := 0x08
def BIT_CTRL_1_INTCN : Nat := 0x04
def BIT_CTRL_2_OSF : Nat := 0x80
def BIT_CTRL_2_BSY : Nat := 0x04
def BIT_CTRL_2_A2F : Nat := 0x02
def BIT_CTRL_2_A1F : Nat := 0x01
def BIT_CTRL_3_BB_TD : Nat := 0x01

def BIT_MONTH_CENTURY0 : Nat := 0x80
def BIT_MONTH_CENTURY1 : Nat := 0x40
def BIT_MONTH_CENTURY2 : Nat := 0x20

def ACTION_RESET_TIMER : Nat := 0x01
def ACTION_CONVERT_TEMPERATURE : Nat := 0x02

/-- `Soft323x::bcd_enc`: division-free binary to BCD encoder
(successive subtraction of 80/40/20/10). -/
def bcd_enc (value : Nat) : Nat :=
  let lsd := value
  let msd := 0
  let (lsd, msd) := if lsd ≥ 80 then (lsd - 80, msd + 8) else (lsd, msd)
  let (lsd, msd) := if lsd ≥ 40 then (lsd - 40, msd + 4) else (lsd, msd)
  let (lsd, msd) := if lsd ≥ 20 then (lsd - 20, msd + 2) else (lsd, msd)
  let (lsd, msd) := if lsd ≥ 10 then (lsd - 10, msd + 1) else (lsd, msd)
  (msd <<< 4) ||| lsd

/-- `Soft323x::bcd_dec`: BCD to binary, `value - 6 * (value >> 4)`.
For a byte the subtraction never underflows, so `Nat` subtraction is exact. -/
def bcd_dec (value : Nat) : Nat :=
  value - 6 * (value >>> 4)

/-- `Soft323x::bcd_canon`: clamp a BCD byte between `min_bcd` and `max_bcd`
by nibble-wise comparison. -/
def bcd_canon (value min_bcd max_bcd : Nat) : Nat :=
  let msd_max := max_bcd &&& 0xF0
  let lsd_max := max_bcd &&& 0x0F
  let msd_min := min_bcd &&& 0xF0
  let lsd_min := min_bcd &&& 0x0F
  let msd := value &&& 0xF0
  let lsd := value &&& 0x0F
  if msd > msd_max ∨ (msd = msd_max ∧ lsd > lsd_max) then
    msd_max ||| lsd_max
  else if msd < msd_min ∨ (msd = msd_min ∧ lsd < lsd_min) then
    msd_min ||| lsd_min
  else
    msd ||| lsd

/-- `Soft323x::increment_bcd`: increment the BCD value stored in `reg` under
`mask` up to `max_bcd`, overflowing to `overflow_to_bcd`.  Returns the new
register value and the overflow flag.  The local `uint8_t bcd` arithmetic is
reduced modulo 256 exactly where the C code can wrap. -/
def increment_bcd (reg mask max_bcd overflow_to_bcd : Nat) : Nat × Bool :=
  let bcd := reg &&& mask
  if bcd = max_bcd then
    ((reg &&& (255 ^^^ mask)) ||| (overflow_to_bcd &&& mask), true)
  else
    let bcd := (bcd + 1) % 256
    let bcd := if bcd &&& 0x0F ≥ 0x0A then ((bcd &&& 0xF0) + 0x10) % 256 else bcd
    ((reg &&& (255 ^^^ mask)) ||| (bcd &&& mask), false)

/-- `Soft323x::is_leap_year`. -/
def is_leap_year (year : Nat) : Bool :=
  year % 4 = 0 && (year % 100 ≠ 0 || year % 400 = 0)

/-- `Soft323x::number_of_days`. -/
def number_of_days (month year : Nat) : Nat :=
  match month with
  | 1 => 31
  | 2 => if is_leap_year year then 29 else 28
  | 3 => 31
  | 4 => 30
  | 5 => 31
  | 6 => 30
  | 7 => 31
  | 8 => 31
  | 9 => 30
  | 10 => 31
  | 11 => 30
  | 12 => 31
  | _ => 0

/-- The register file (`struct Registers`).  The user SRAM (`Reg 14h-FFh`)
is a list whose length is the template parameter `SRAM_SIZE`. -/
structure Registers where
  seconds : Nat
  minutes : Nat
  hours : Nat
  day : Nat
  date : Nat
  month : Nat
  year : Nat
  alarm_1_seconds : Nat
  alarm_1_minutes : Nat
  alarm_1_hours : Nat
  alarm_1_day_or_date : Nat
  alarm_2_minutes : Nat
  alarm_2_hours : Nat
  alarm_2_day_or_date : Nat
  ctrl_1 : Nat
  ctrl_2 : Nat
  aging_offset : Nat
  temp_msb : Nat
  temp_lsb : Nat
  ctrl_3 : Nat
  sram : List Nat
deriving Repr, DecidableEq

/-- `Soft323x::month()` accessor. -/
def monthOf (t : Registers) : Nat := bcd_dec (t.month &&& MASK_MONTH)

/-- `Soft323x::year()` accessor (century bits add 100/200/400 to 1900+BCD). -/
def yearOf (t : Registers) : Nat :=
  let y := 1900 + bcd_dec (t.year &&& MASK_YEAR)
  let y := if t.month &&& BIT_MONTH_CENTURY0 ≠ 0 then y + 100 else y
  let y := if t.month &&& BIT_MONTH_CENTURY1 ≠ 0 then y + 200 else y
  let y := if t.month &&& BIT_MONTH_CENTURY2 ≠ 0 then y + 400 else y
  y

/-- `Soft323x::seconds()` accessor. -/
def secondsOf (t : Registers) : Nat := bcd_dec (t.seconds &&& MASK_SECONDS)

/-- `Soft323x::minutes()` accessor. -/
def minutesOf (t : Registers) : Nat := bcd_dec (t.minutes &&& MASK_MINUTES)

/-- `Soft323x::day()` accessor. -/
def dayOf (t : Registers) : Nat := bcd_dec (t.day &&& MASK_DAY)

/-- `Soft323x::date()` accessor. -/
def dateOf (t : Registers) : Nat := bcd_dec (t.date &&& MASK_DATE)

/-- `Soft323x::hours()` accessor (normalises 12-hour mode to 0..23). -/
def hoursOf (t : Registers) : Nat :=
  if t.hours &&& BIT_HOUR_12_HOURS ≠ 0 then
    let h := bcd_dec (t.hours &&& MASK_HOURS_12_HOURS)
    if t.hours &&& BIT_HOUR_PM ≠ 0 then
      if h = 12 then h else 12 + h
    else
      if h = 12 then 0 else h
  else
    bcd_dec (t.hours &&& MASK_HOURS_24_HOURS)

/-- `Soft323x::canonicalise_date`: clamp the date register to
`[01, number_of_days(month(), year())]`. -/
def canonicalise_date (t : Registers) : Registers :=
  let n_days := number_of_days (monthOf t) (yearOf t)
  { t with date := bcd_canon t.date (bcd_enc 1) (bcd_enc n_days) }

/-- Tail of `Soft323x::increment_time` from the comment
`A new day has started` on: day-of-week, date, month, year and the
three-bit century counter. -/
def roll_day_date (t : Registers) : Registers :=
  let t := { t with day := (increment_bcd t.day MASK_DAY (bcd_enc 7) 1).1 }
  let n_days := number_of_days (monthOf t) (yearOf t)
  let dres := increment_bcd t.date MASK_DATE (bcd_enc n_days) 1
  let t := { t with date := dres.1 }
  if !dres.2 then t else
  let mres := increment_bcd t.month MASK_MONTH (bcd_enc 12) 1
  let t := { t with month := mres.1 }
  if !mres.2 then t else
  let yres := increment_bcd t.year MASK_YEAR (bcd_enc 99) 0
  let t := { t with year := yres.1 }
  if !yres.2 then t else
  let t := { t with month := t.month ^^^ BIT_MONTH_CENTURY0 }
  if t.month &&& BIT_MONTH_CENTURY0 ≠ 0 then t else
  let t := { t with month := t.month ^^^ BIT_MONTH_CENTURY1 }
  if t.month &&& BIT_MONTH_CENTURY1 ≠ 0 then t else
  { t with month := t.month ^^^ BIT_MONTH_CENTURY2 }

/-- `Soft323x::increment_time`: advance the calendar registers by one
second, with early return on no-carry, both hour modes, and
the day/date/month/year/century chain in `roll_day_date`. -/
def increment_time (t : Registers) : Registers :=
  let sres := increment_bcd t.seconds MASK_SECONDS (bcd_enc 59) 0
  let t := { t with seconds := sres.1 }
  if !sres.2 then t else
  let mres := increment_bcd t.minutes MASK_MINUTES (bcd_enc 59) 0
  let t := { t with minutes := mres.1 }
  if !mres.2 then t else
  if t.hours &&& BIT_HOUR_12_HOURS ≠ 0 then
    let hres := increment_bcd t.hours MASK_HOURS_12_HOURS (bcd_enc 13) 1
    let t := { t with hours := hres.1 }
    if !hres.2 then
      if t.hours &&& MASK_HOURS_12_HOURS = bcd_enc 13 then
        { t with hours := (t.hours &&& (255 ^^^ MASK_HOURS_12_HOURS)) ||| bcd_enc 1 }
      else if t.hours &&& MASK_HOURS_12_HOURS = bcd_enc 12 then
        let t := { t with hours := t.hours ^^^ BIT_HOUR_PM }
        if t.hours &&& BIT_HOUR_PM ≠ 0 then t
        else roll_day_date t
      else t
    else roll_day_date t
  else
    let hres := increment_bcd t.hours MASK_HOURS_24_HOURS (bcd_enc 23) 0
    let t := { t with hours := hres.1 }
    if !hres.2 then t else roll_day_date t

/-- The local variable `alarm1` of `Soft323x::check_alarms`: alarm 1
triggers this second. -/
def alarm1_fires (t : Registers) : Bool :=
  let a1f : Bool := t.ctrl_2 &&& BIT_CTRL_2_A1F != 0
  let a1m1 : Bool := t.alarm_1_seconds &&& BIT_ALARM_MODE != 0
  let a1m2 : Bool := t.alarm_1_minutes &&& BIT_ALARM_MODE != 0
  let a1m3 : Bool := t.alarm_1_hours &&& BIT_ALARM_MODE != 0
  let a1m4 : Bool := t.alarm_1_day_or_date &&& BIT_ALARM_MODE != 0
  let a1dy : Bool := t.alarm_1_day_or_date &&& BIT_ALARM_IS_DAY != 0
  let ss := t.seconds &&& MASK_SECONDS
  let mm := t.minutes &&& MASK_MINUTES
  let hh := t.hours &&& 0x7F
  let dy := t.day &&& MASK_DAY
  let dt := t.date &&& MASK_DATE
  let a1_ss := t.alarm_1_seconds &&& MASK_SECONDS
  let a1_mm := t.alarm_1_minutes &&& MASK_MINUTES
  let a1_hh := t.alarm_1_hours &&& 0x7F
  let a1_dy_dt := if a1dy then t.alarm_1_day_or_date &&& MASK_DAY
                  else t.alarm_1_day_or_date &&& MASK_DATE
  (!a1f) && (a1m1 || (!a1m1 && (a1_ss == ss))) && (a1m2 || (!a1m2 && (a1_mm == mm))) &&
    (a1m3 || (!a1m3 && (a1_hh == hh))) &&
    (a1m4 || (!a1m4 && ((if a1dy then dy else dt) == a1_dy_dt)))

/-- The local variable `alarm2` of `Soft323x::check_alarms`: alarm 2
triggers this second (requires seconds == 0). -/
def alarm2_fires (t : Registers) : Bool :=
  let a2f : Bool := t.ctrl_2 &&& BIT_CTRL_2_A2F != 0
  let a2m1 : Bool := t.alarm_2_minutes &&& BIT_ALARM_MODE != 0
  let a2m2 : Bool := t.alarm_2_hours &&& BIT_ALARM_MODE != 0
  let a2m3 : Bool := t.alarm_2_day_or_date &&& BIT_ALARM_MODE != 0
  let a2dy : Bool := t.alarm_2_day_or_date &&& BIT_ALARM_IS_DAY != 0
  let ss := t.seconds &&& MASK_SECONDS
  let mm := t.minutes &&& MASK_MINUTES
  let hh := t.hours &&& 0x7F
  let dy := t.day &&& MASK_DAY
  let dt := t.date &&& MASK_DATE
  let a2_mm := t.alarm_2_minutes &&& MASK_MINUTES
  let a2_hh := t.alarm_2_hours &&& 0x7F
  let a2_dy_dt := if a2dy then t.alarm_2_day_or_date &&& MASK_DAY
                  else t.alarm_2_day_or_date &&& MASK_DATE
  (!a2f) && (ss == 0) && (a2m1 || (!a2m1 && (a2_mm == mm))) &&
    (a2m2 || (!a2m2 && (a2_hh == hh))) &&
    (a2m3 || (!a2m3 && ((if a2dy then dy else dt) == a2_dy_dt)))

/-- `Soft323x::check_alarms`: evaluate both alarm match conditions against
the current time and set the sticky A1F/A2F flags in control 2.  Both
conditions read the registers before either flag is updated, exactly as the
source computes `alarm1` and `alarm2` before the two stores. -/
def check_alarms (t : Registers) : Registers :=
  let t1 := if alarm1_fires t then { t with ctrl_2 := t.ctrl_2 ||| BIT_CTRL_2_A1F } else t
  if alarm2_fires t then { t1 with ctrl_2 := t1.ctrl_2 ||| BIT_CTRL_2_A2F } else t1

/-- Full device state: register bank, the tick accumulator `m_ticks`
(an 8-bit counter) and the `m_wrote_date` flag. -/
structure Chip where
  regs : Registers
  ticks : Nat
  wrote_date : Bool
deriving Repr, DecidableEq

/-- `Soft323x::tick()`: increment the 8-bit tick accumulator. -/
def tick (s : Chip) : Chip := { s with ticks := (s.ticks + 1) % 256 }

/-- One loop iteration of `Soft323x::update()`: one second of time advance
followed by one alarm evaluation. -/
def tick_step (t : Registers) : Registers := check_alarms (increment_time t)

/-- The tick-consuming loop of `Soft323x::update()`. -/
def apply_ticks : Nat → Registers → Registers
  | 0, t => t
  | n + 1, t => apply_ticks n (tick_step t)

/-- `Soft323x::update()`: canonicalise the date if it was written, then
drain the tick accumulator and apply that many seconds. -/
def update (s : Chip) : Chip :=
  let r0 := if s.wrote_date then canonicalise_date s.regs else s.regs
  { regs := apply_ticks s.ticks r0, ticks := 0, wrote_date := false }

/-- `Soft323x::set_oscillator_stop_flag()`. -/
def set_oscillator_stop_flag (s : Chip) : Chip :=
  { s with regs := { s.regs with ctrl_2 := s.regs.ctrl_2 ||| BIT_CTRL_2_OSF } }

/-- `Soft323x::reset()`.  The C++ code leaves the SRAM bytes untouched, so
the reset state is parameterised by the prior SRAM contents. -/
def reset (sram0 : List Nat) : Chip :=
  { regs :=
      { seconds := bcd_enc 0
        minutes := bcd_enc 0
        hours := bcd_enc 0
        day := bcd_enc 2
        date := bcd_enc 1
        month := bcd_enc 1 ||| BIT_MONTH_CENTURY
        year := bcd_enc 19
        alarm_1_seconds := bcd_enc 0
        alarm_1_minutes := bcd_enc 0
        alarm_1_hours := bcd_enc 0
        alarm_1_day_or_date := bcd_enc 1
        alarm_2_minutes := bcd_enc 0
        alarm_2_hours := bcd_enc 0
        alarm_2_day_or_date := bcd_enc 1
        ctrl_1 := BIT_CTRL_1_RS2 ||| BIT_CTRL_1_RS1 ||| BIT_CTRL_1_INTCN
        ctrl_2 := BIT_CTRL_2_OSF
        aging_offset := 0
        temp_msb := 0xFF
        temp_lsb := 0xC0
        ctrl_3 := 0
        sram := sram0 }
    ticks := 0
    wrote_date := false }

/-- Byte-addressed view of the register bank (`m_regs.mem[addr]`),
following the packed layout of `struct Registers`. -/
def read_mem (t : Registers) (addr : Nat) : Nat :=
  if addr = 0 then t.seconds
  else if addr = 1 then t.minutes
  else if addr = 2 then t.hours
  else if addr = 3 then t.day
  else if addr = 4 then t.date
  else if addr = 5 then t.month
  else if addr = 6 then t.year
  else if addr = 7 then t.alarm_1_seconds
  else if addr = 8 then t.alarm_1_minutes
  else if addr = 9 then t.alarm_1_hours
  else if addr = 10 then t.alarm_1_day_or_date
  else if addr = 11 then t.alarm_2_minutes
  else if addr = 12 then t.alarm_2_hours
  else if addr = 13 then t.alarm_2_day_or_date
  else if addr = 14 then t.ctrl_1
  else if addr = 15 then t.ctrl_2
  else if addr = 16 then t.aging_offset
  else if addr = 17 then t.temp_msb
  else if addr = 18 then t.temp_lsb
  else if addr = 19 then t.ctrl_3
  else t.sram.getD (addr - 20) 0

/-- Byte-addressed store into the register bank (`m_regs.mem[addr] = v`). -/
def write_mem (t : Registers) (addr value : Nat) : Registers :=
  if addr = 0 then { t with seconds := value }
  else if addr = 1 then { t with minutes := value }
  else if addr = 2 then { t with hours := value }
  else if addr = 3 then { t with day := value }
  else if addr = 4 then { t with date := value }
  else if addr = 5 then { t with month := value }
  else if addr = 6 then { t with year := value }
  else if addr = 7 then { t with alarm_1_seconds := value }
  else if addr = 8 then { t with alarm_1_minutes := value }
  else if addr = 9 then { t with alarm_1_hours := value }
  else if addr = 10 then { t with alarm_1_day_or_date := value }
  else if addr = 11 then { t with alarm_2_minutes := value }
  else if addr = 12 then { t with alarm_2_hours := value }
  else if addr = 13 then { t with alarm_2_day_or_date := value }
  else if addr = 14 then { t with ctrl_1 := value }
  else if addr = 15 then { t with ctrl_2 := value }
  else if addr = 16 then { t with aging_offset := value }
  else if addr = 17 then { t with temp_msb := value }
  else if addr = 18 then { t with temp_lsb := value }
  else if addr = 19 then { t with ctrl_3 := value }
  else { t with sram := t.sram.set (addr - 20) value }

/-- `sizeof(Registers)`: 20 named registers plus the SRAM. -/
def bank_size (t : Registers) : Nat := 20 + t.sram.length

/-- `Soft323x::i2c_read`: out-of-bank reads return 0; no side effects
(the function is pure). -/
def i2c_read (s : Chip) (addr : Nat) : Nat :=
  if addr ≥ bank_size s.regs then 0 else read_mem s.regs addr

/-- The per-address `switch` statement of `Soft323x::i2c_write`. -/
def i2c_write_base (s : Chip) (addr value : Nat) : Chip × Nat :=
  let t := s.regs
  if addr = 0 then
      ({ s with
         regs := { t with seconds := bcd_canon (value &&& MASK_SECONDS) (bcd_enc 0) (bcd_enc 59) }
         ticks := 0 },
       ACTION_RESET_TIMER)
    else if addr = 7 then
      ({ s with
         regs := { t with alarm_1_seconds := bcd_canon (value &&& MASK_SECONDS) (bcd_enc 0) (bcd_enc 59) }
         ticks := 0 },
       0)
    else if addr = 1 ∨ addr = 8 ∨ addr = 11 then
      ({ s with regs := write_mem t addr (bcd_canon (value &&& MASK_MINUTES) (bcd_enc 0) (bcd_enc 59)) }, 0)
    else if addr = 2 ∨ addr = 9 ∨ addr = 12 then
      let v := if value &&& BIT_HOUR_12_HOURS ≠ 0 then
                 bcd_canon (value &&& MASK_HOURS_12_HOURS) (bcd_enc 1) (bcd_enc 12) |||
                   BIT_HOUR_12_HOURS ||| (value &&& BIT_HOUR_PM)
               else
                 bcd_canon (value &&& MASK_HOURS_24_HOURS) (bcd_enc 0) (bcd_enc 23)
      ({ s with regs := write_mem t addr v }, 0)
    else if addr = 3 then
      ({ s with regs := { t with day := bcd_canon (value &&& MASK_DAY) (bcd_enc 1) (bcd_enc 7) } }, 0)
    else if addr = 4 then
      ({ s with
         regs := { t with date := bcd_canon (value &&& MASK_DATE) (bcd_enc 1) (bcd_enc 31) }
         wrote_date := true }, 0)
    else if addr = 5 then
      ({ s with
         regs := { t with month := bcd_canon (value &&& MASK_MONTH) (bcd_enc 1) (bcd_enc 12) |||
                     (value &&& (BIT_MONTH_CENTURY0 ||| BIT_MONTH_CENTURY1 ||| BIT_MONTH_CENTURY2)) }
         wrote_date := true }, 0)
    else if addr = 6 then
      ({ s with
         regs := { t with year := bcd_canon (value &&& MASK_YEAR) (bcd_enc 0) (bcd_enc 99) }
         wrote_date := true }, 0)
    else if addr = 10 ∨ addr = 13 then
      let v := if value &&& BIT_ALARM_IS_DAY ≠ 0 then
                 bcd_canon (value &&& MASK_DAY) (bcd_enc 1) (bcd_enc 7) ||| BIT_ALARM_IS_DAY
               else
                 bcd_canon (value &&& MASK_DATE) (bcd_enc 1) (bcd_enc 31)
      ({ s with regs := write_mem t addr v }, 0)
    else if addr = 14 then
      ({ s with regs := { t with ctrl_1 := value ||| (t.ctrl_1 &&& BIT_CTRL_1_CONV) } },
       if value &&& BIT_CTRL_1_CONV ≠ 0 then ACTION_CONVERT_TEMPERATURE else 0)
    else if addr = 15 then
      ({ s with regs := { t with ctrl_2 :=
          (value &&& (255 ^^^ (BIT_CTRL_2_OSF ||| BIT_CTRL_2_A1F ||| BIT_CTRL_2_A2F ||| BIT_CTRL_2_BSY))) |||
          ((value &&& t.ctrl_2) &&& (BIT_CTRL_2_OSF ||| BIT_CTRL_2_A1F ||| BIT_CTRL_2_A2F)) |||
          (value &&& BIT_CTRL_2_BSY) } }, 0)
    else if addr = 19 then
      ({ s with regs := { t with ctrl_3 := value &&& BIT_CTRL_3_BB_TD } }, 0)
    else if addr = 17 ∨ addr = 18 then
      (s, 0)
    else
      (if addr < bank_size t then { s with regs := write_mem t addr value } else s, 0)
/-- `Soft323x::i2c_write`: the per-address `switch` (`i2c_write_base`),
followed by the alarm-mode-bit OR for addresses 0x07..0x0D.  Returns the
new state and the action flags. -/
def i2c_write (s : Chip) (addr value : Nat) : Chip × Nat :=
  let base := i2c_write_base s addr value
  let regs2 :=
    if 7 ≤ addr ∧ addr ≤ 13 ∧ value &&& BIT_ALARM_MODE ≠ 0 then
      write_mem base.1.regs addr (read_mem base.1.regs addr ||| BIT_ALARM_MODE)
    else base.1.regs
  ({ base.1 with regs := regs2 }, base.2)


/-- Start state 2099-12-31 23:59:59 (24-hour mode, century bits c0=1). -/
def regs2099 : Registers :=
  { seconds := 0x59, minutes := 0x59, hours := 0x23, day := 4, date := 0x31
    month := 0x12 ||| BIT_MONTH_CENTURY0, year := 0x99
    alarm_1_seconds := 0, alarm_1_minutes := 0, alarm_1_hours := 0
    alarm_1_day_or_date := 1, alarm_2_minutes := 0, alarm_2_hours := 0
    alarm_2_day_or_date := 1, ctrl_1 := 0, ctrl_2 := 0, aging_offset := 0
    temp_msb := 0xFF, temp_lsb := 0xC0, ctrl_3 := 0, sram := [] }

/-- Start state 2199-12-31 23:59:59 (century bits c1=1). -/
def regs2199 : Registers := { regs2099 with month := 0x12 ||| BIT_MONTH_CENTURY1 }

/-- Start state 2399-12-31 23:59:59 (century bits c2=1). -/
def regs2399 : Registers := { regs2099 with month := 0x12 ||| BIT_MONTH_CENTURY2 }

/-- The temperature sentinel values established by `reset()`. -/
def temps_ok (t : Registers) : Prop := t.temp_msb = 255 ∧ t.temp_lsb = 192

/-- States reachable from `reset()` (with arbitrary prior SRAM contents)
by any sequence of `tick`, `update`, `set_oscillator_stop_flag` and
`i2c_write` calls. -/
inductive Reachable : Chip → Prop where
  | from_reset (sram0 : List Nat) : Reachable (reset sram0)
  | step_tick {s : Chip} : Reachable s → Reachable (tick s)
  | step_update {s : Chip} : Reachable s → Reachable (update s)
  | step_osf {s : Chip} : Reachable s → Reachable (set_oscillator_stop_flag s)
  | step_write {s : Chip} (addr v : Nat) : Reachable s → Reachable ((i2c_write s addr v).1)

/-- Spec-side match condition for alarm 1. -/
def alarm1_matches_spec (t : Registers) : Prop :=
  (t.alarm_1_seconds &&& BIT_ALARM_MODE = 0 →
     t.alarm_1_seconds &&& MASK_SECONDS = t.seconds &&& MASK_SECONDS) ∧
  (t.alarm_1_minutes &&& BIT_ALARM_MODE = 0 →
     t.alarm_1_minutes &&& MASK_MINUTES = t.minutes &&& MASK_MINUTES) ∧
  (t.alarm_1_hours &&& BIT_ALARM_MODE = 0 →
     t.alarm_1_hours &&& 0x7F = t.hours &&& 0x7F) ∧
  (t.alarm_1_day_or_date &&& BIT_ALARM_MODE = 0 →
     (if t.alarm_1_day_or_date &&& BIT_ALARM_IS_DAY ≠ 0 then
        t.day &&& MASK_DAY = t.alarm_1_day_or_date &&& MASK_DAY
      else
        t.date &&& MASK_DATE = t.alarm_1_day_or_date &&& MASK_DATE))

/-- Spec-side match condition for alarm 2. -/
def alarm2_matches_spec (t : Registers) : Prop :=
  (t.alarm_2_minutes &&& BIT_ALARM_MODE = 0 →
     t.alarm_2_minutes &&& MASK_MINUTES = t.minutes &&& MASK_MINUTES) ∧
  (t.alarm_2_hours &&& BIT_ALARM_MODE = 0 →
     t.alarm_2_hours &&& 0x7F = t.hours &&& 0x7F) ∧
  (t.alarm_2_day_or_date &&& BIT_ALARM_MODE = 0 →
     (if t.alarm_2_day_or_date &&& BIT_ALARM_IS_DAY ≠ 0 then
        t.day &&& MASK_DAY = t.alarm_2_day_or_date &&& MASK_DAY
      else
        t.date &&& MASK_DATE = t.alarm_2_day_or_date &&& MASK_DATE))

/-- State at 11:59:59 PM (12-hour mode) used as the C4 witness. -/
def regs12h : Registers := { regs2099 with hours := 113 }

/-! ### Generic bit-arithmetic helper lemmas -/

theorem and_bit_cases (x i : Nat) : x &&& 2 ^ i = 0 ∨ x &&& 2 ^ i = 2 ^ i := by
  rw [Nat.and_two_pow]
  cases x.testBit i <;> simp

theorem and1_cases (x : Nat) : x &&& 1 = 0 ∨ x &&& 1 = 1 := by
  rw [Nat.and_one_is_mod]
  omega

theorem and2_cases (x : Nat) : x &&& 2 = 0 ∨ x &&& 2 = 2 := by
  have h := and_bit_cases x 1
  norm_num at h
  exact h

theorem and32_cases (x : Nat) : x &&& 32 = 0 ∨ x &&& 32 = 32 := by
  have h := and_bit_cases x 5
  norm_num at h
  exact h

theorem and128_cases (x : Nat) : x &&& 128 = 0 ∨ x &&& 128 = 128 := by
  have h := and_bit_cases x 7
  norm_num at h
  exact h

/-! ### C9: BCD encode/decode round trips -/

set_option maxRecDepth 4096 in
theorem bcd_enc_dec_of_nibbles : ∀ b < 256, b >>> 4 < 10 → b &&& 15 < 10 →
    bcd_dec (bcd_enc b) = b := by decide

theorem bcd_enc_dec_enc : ∀ v < 100, bcd_enc (bcd_dec (bcd_enc v)) = bcd_enc v := by decide

/-- C9: for every byte whose two nibbles are below 10, `bcd_dec` inverts
`bcd_enc`, and for v in 0..=99 encoding is idempotent through a decode. -/
theorem bcd_roundtrip (b v : Nat) (hb : b < 256) (hhi : b >>> 4 < 10)
    (hlo : b &&& 15 < 10) (hv : v ≤ 99) :
    bcd_dec (bcd_enc b) = b ∧ bcd_enc (bcd_dec (bcd_enc v)) = bcd_enc v :=
  ⟨bcd_enc_dec_of_nibbles b hb hhi hlo, bcd_enc_dec_enc v (by omega)⟩

/-- C9 witness at b = 0x59, v = 59. -/
theorem bcd_roundtrip_witness :
    bcd_dec (bcd_enc 89) = 89 ∧ bcd_enc (bcd_dec (bcd_enc 59)) = bcd_enc 59 :=
  bcd_roundtrip 89 59 (by decide) (by decide) (by decide) (by decide)

/-! ### C6: writing the seconds register -/

/-- C6: `i2c_write(0x00, v)` stores the clamped seconds, drains the tick
accumulator to zero, returns exactly `ACTION_RESET_TIMER`, and changes
nothing else. -/
theorem write_seconds_resets_timer (s : Chip) (v : Nat) :
    i2c_write s 0 v =
      ({ s with
         regs := { s.regs with seconds := bcd_canon (v &&& MASK_SECONDS) (bcd_enc 0) (bcd_enc 59) }
         ticks := 0 },
       ACTION_RESET_TIMER) := rfl

/-! ### C7: writing the alarm-1 seconds register -/

/-- C7 counterexample: the claim says a write to 0x07 leaves the tick
accumulator unchanged, but the code's fallthrough into the shared
seconds/alarm-seconds case drains it: with 5 pending ticks, after
`i2c_write(0x07, 0)` the accumulator is 0, not 5. -/
theorem write_alarm1_seconds_drains_ticks :
    ¬ ((i2c_write { reset [] with ticks := 5 } 7 0).1.ticks =
        ({ reset [] with ticks := 5 } : Chip).ticks) := by decide

/-- C7 amended: `i2c_write(0x07, v)` stores the clamped alarm-1 seconds
(with bit 7 of v OR'd back in), returns no action flags and changes no other
register, but it *does* drain the tick accumulator to 0. -/
theorem write_alarm1_seconds_amended (s : Chip) (v : Nat) :
    i2c_write s 7 v =
      (let a1s := if v &&& BIT_ALARM_MODE ≠ 0 then
                    bcd_canon (v &&& MASK_SECONDS) (bcd_enc 0) (bcd_enc 59) ||| BIT_ALARM_MODE
                  else
                    bcd_canon (v &&& MASK_SECONDS) (bcd_enc 0) (bcd_enc 59)
       ({ s with regs := { s.regs with alarm_1_seconds := a1s }, ticks := 0 }, 0)) := by
  by_cases h : v &&& BIT_ALARM_MODE ≠ 0
  · simp only [i2c_write]
    rw [if_pos ⟨by omega, by omega, h⟩, if_pos h]
    rfl
  · simp only [i2c_write]
    rw [if_neg (fun hc => h hc.2.2), if_neg h]
    rfl

/-! ### C8: out-of-bank accesses -/

/-- C8: reads beyond the bank return 0 and writes beyond the bank leave the
whole state unchanged and return no action flags (`i2c_read` is a pure
function of the state, so it has no side effects). -/
theorem out_of_bank_access (s : Chip) (addr v : Nat) (h : bank_size s.regs ≤ addr) :
    i2c_read s addr = 0 ∧ i2c_write s addr v = (s, 0) := by
  have h20 : 20 ≤ addr := by
    have hb : 20 ≤ bank_size s.regs := by unfold bank_size; omega
    omega
  have hbase : i2c_write_base s addr v = (s, 0) := by
    simp only [i2c_write_base]
    rw [if_neg (show addr ≠ 0 by omega), if_neg (show addr ≠ 7 by omega),
        if_neg (show ¬(addr = 1 ∨ addr = 8 ∨ addr = 11) by omega),
        if_neg (show ¬(addr = 2 ∨ addr = 9 ∨ addr = 12) by omega),
        if_neg (show addr ≠ 3 by omega), if_neg (show addr ≠ 4 by omega),
        if_neg (show addr ≠ 5 by omega), if_neg (show addr ≠ 6 by omega),
        if_neg (show ¬(addr = 10 ∨ addr = 13) by omega),
        if_neg (show addr ≠ 14 by omega), if_neg (show addr ≠ 15 by omega),
        if_neg (show addr ≠ 19 by omega),
        if_neg (show ¬(addr = 17 ∨ addr = 18) by omega),
        if_neg (show ¬(addr < bank_size s.regs) by omega)]
  constructor
  · unfold i2c_read
    rw [if_pos h]
  · simp only [i2c_write, hbase]
    rw [if_neg (fun hc => absurd hc.2.1 (by omega : ¬ addr ≤ 13))]

/-- C8 witness: with no SRAM the bank is 20 bytes; address 30 is outside. -/
theorem out_of_bank_access_witness :
    i2c_read (reset []) 30 = 0 ∧ i2c_write (reset []) 30 5 = (reset [], 0) :=
  out_of_bank_access (reset []) 30 5 (by decide)

/-! ### C5: writing control 2 -/

/-- C5: after `i2c_write(0x0F, v)`, each of OSF (0x80), A1F (0x01) and
A2F (0x02) is the old bit AND the written bit, BSY (0x04) and all other
bits are stored as written. -/
theorem ctrl2_write_bit_semantics (s : Chip) (v : Nat) :
    (i2c_write s 15 v).1.regs.ctrl_2 &&& BIT_CTRL_2_OSF =
      (v &&& s.regs.ctrl_2) &&& BIT_CTRL_2_OSF ∧
    (i2c_write s 15 v).1.regs.ctrl_2 &&& BIT_CTRL_2_A1F =
      (v &&& s.regs.ctrl_2) &&& BIT_CTRL_2_A1F ∧
    (i2c_write s 15 v).1.regs.ctrl_2 &&& BIT_CTRL_2_A2F =
      (v &&& s.regs.ctrl_2) &&& BIT_CTRL_2_A2F ∧
    (i2c_write s 15 v).1.regs.ctrl_2 &&& BIT_CTRL_2_BSY = v &&& BIT_CTRL_2_BSY ∧
    (i2c_write s 15 v).1.regs.ctrl_2 &&& 0x78 = v &&& 0x78 := by
  have hc : (i2c_write s 15 v).1.regs.ctrl_2 =
      (v &&& 120) ||| ((v &&& s.regs.ctrl_2) &&& 131) ||| (v &&& 4) := rfl
  have key : ∀ m : Nat,
      ((v &&& 120) ||| ((v &&& s.regs.ctrl_2) &&& 131) ||| (v &&& 4)) &&& m =
        (v &&& (120 &&& m)) ||| ((v &&& s.regs.ctrl_2) &&& (131 &&& m)) |||
          (v &&& (4 &&& m)) := by
    intro m
    rw [Nat.and_distrib_right, Nat.and_distrib_right]
    simp only [Nat.and_assoc]
  refine ⟨?_, ?_, ?_, ?_, ?_⟩ <;> rw [hc] <;>
    simp only [BIT_CTRL_2_OSF, BIT_CTRL_2_A1F, BIT_CTRL_2_A2F, BIT_CTRL_2_BSY, key,
          show (120 &&& 128 : Nat) = 0 by decide, show (131 &&& 128 : Nat) = 128 by decide,
          show (4 &&& 128 : Nat) = 0 by decide, show (120 &&& 1 : Nat) = 0 by decide,
          show (131 &&& 1 : Nat) = 1 by decide, show (4 &&& 1 : Nat) = 0 by decide,
          show (120 &&& 2 : Nat) = 0 by decide, show (131 &&& 2 : Nat) = 2 by decide,
          show (4 &&& 2 : Nat) = 0 by decide, show (120 &&& 4 : Nat) = 0 by decide,
          show (131 &&& 4 : Nat) = 0 by decide, show (4 &&& 4 : Nat) = 4 by decide,
          show (120 &&& 120 : Nat) = 120 by decide, show (131 &&& 120 : Nat) = 0 by decide,
          show (4 &&& 120 : Nat) = 0 by decide, Nat.and_zero, Nat.zero_or, Nat.or_zero]

/-! ### C3: date canonicalisation on commit -/

set_option maxHeartbeats 1000000 in
/-- C3: if the date/month/year was written since the last commit
(`wrote_date` is set), the next `update()` first clamps the date register
against the current month/year and clears the flag, before applying any
pending ticks; and the three concrete scenarios from the spec produce
date() = 28, 29 and 28. -/
theorem update_canonicalises_date_first (s : Chip) (h : s.wrote_date = true) :
    update s = { regs := apply_ticks s.ticks (canonicalise_date s.regs),
                 ticks := 0, wrote_date := false } ∧
    (canonicalise_date s.regs).date =
      bcd_canon s.regs.date (bcd_enc 1)
        (bcd_enc (number_of_days (monthOf s.regs) (yearOf s.regs))) ∧
    (let s1 := update (i2c_write
        (i2c_write (reset []) 5 (bcd_enc 2 ||| BIT_MONTH_CENTURY)).1 4 (bcd_enc 30)).1
     dateOf s1.regs = 28 ∧
     (let s2 := update (i2c_write (i2c_write s1 6 (bcd_enc 0)).1 4 (bcd_enc 29)).1
      dateOf s2.regs = 29 ∧
      (let s3 := update (i2c_write s2 6 (bcd_enc 1)).1
       dateOf s3.regs = 28))) := by
  refine ⟨by simp [update, h], rfl, by decide⟩

/-- C3 witness: after a date write the flag is set, so the theorem applies. -/
theorem update_canonicalises_date_first_witness :
    update (i2c_write (reset []) 4 (bcd_enc 30)).1 =
      { regs := apply_ticks (i2c_write (reset []) 4 (bcd_enc 30)).1.ticks
          (canonicalise_date (i2c_write (reset []) 4 (bcd_enc 30)).1.regs),
        ticks := 0, wrote_date := false } :=
  (update_canonicalises_date_first (i2c_write (reset []) 4 (bcd_enc 30)).1 rfl).1

/-! ### C1: century rollover -/

/-- C1 counterexample: from 2099-12-31 23:59:59 one tick does reach
2100-01-01 00:00:00, but the century bits become (c0=0, c1=1, c2=0) --
the binary counter 2 for "two centuries past 1900" -- not the claimed
(c0=1, c1=0, c2=0), which under the claim's own year formula would denote
the year 2000. -/
theorem century_rollover_counterexample :
    (let s := update (tick { regs := regs2099, ticks := 0, wrote_date := false })
     yearOf regs2099 = 2099 ∧ monthOf regs2099 = 12 ∧ dateOf regs2099 = 31 ∧
     hoursOf regs2099 = 23 ∧ minutesOf regs2099 = 59 ∧ secondsOf regs2099 = 59 ∧
     yearOf s.regs = 2100 ∧ secondsOf s.regs = 0 ∧ minutesOf s.regs = 0 ∧
     hoursOf s.regs = 0 ∧ dateOf s.regs = 1 ∧ monthOf s.regs = 1 ∧
     ¬ (s.regs.month &&& BIT_MONTH_CENTURY0 ≠ 0 ∧
        s.regs.month &&& BIT_MONTH_CENTURY1 = 0 ∧
        s.regs.month &&& BIT_MONTH_CENTURY2 = 0)) := by decide

/-- C1 amended: `year()` is `1900 + BCD(year) + 100*c0 + 200*c1 + 400*c2`
(bits 7, 6, 5 of the month register), and the century counter increments in
binary: 2099 rolls to 2100 with (c0=0, c1=1, c2=0), 2199 rolls to 2200 with
(c0=1, c1=1, c2=0), 2399 rolls to 2400 with (c0=1, c1=0, c2=1); each tick
also yields 01-01 00:00:00 of the new year. -/
theorem century_rollover_amended :
    (∀ t : Registers,
      yearOf t = 1900 + bcd_dec (t.year &&& MASK_YEAR) + 100 * ((t.month >>> 7) &&& 1) +
        200 * ((t.month >>> 6) &&& 1) + 400 * ((t.month >>> 5) &&& 1)) ∧
    (let s := update (tick { regs := regs2099, ticks := 0, wrote_date := false })
     yearOf s.regs = 2100 ∧ secondsOf s.regs = 0 ∧ minutesOf s.regs = 0 ∧
     hoursOf s.regs = 0 ∧ dateOf s.regs = 1 ∧ monthOf s.regs = 1 ∧
     s.regs.month &&& BIT_MONTH_CENTURY0 = 0 ∧
     s.regs.month &&& BIT_MONTH_CENTURY1 ≠ 0 ∧
     s.regs.month &&& BIT_MONTH_CENTURY2 = 0) ∧
    (let s := update (tick { regs := regs2199, ticks := 0, wrote_date := false })
     yearOf regs2199 = 2199 ∧ yearOf s.regs = 2200 ∧ secondsOf s.regs = 0 ∧
     minutesOf s.regs = 0 ∧ hoursOf s.regs = 0 ∧ dateOf s.regs = 1 ∧ monthOf s.regs = 1 ∧
     s.regs.month &&& BIT_MONTH_CENTURY0 ≠ 0 ∧
     s.regs.month &&& BIT_MONTH_CENTURY1 ≠ 0 ∧
     s.regs.month &&& BIT_MONTH_CENTURY2 = 0) ∧
    (let s := update (tick { regs := regs2399, ticks := 0, wrote_date := false })
     yearOf regs2399 = 2399 ∧ yearOf s.regs = 2400 ∧ secondsOf s.regs = 0 ∧
     minutesOf s.regs = 0 ∧ hoursOf s.regs = 0 ∧ dateOf s.regs = 1 ∧ monthOf s.regs = 1 ∧
     s.regs.month &&& BIT_MONTH_CENTURY0 ≠ 0 ∧
     s.regs.month &&& BIT_MONTH_CENTURY1 = 0 ∧
     s.regs.month &&& BIT_MONTH_CENTURY2 ≠ 0) := by
  refine ⟨?_, by decide, by decide, by decide⟩
  intro t
  have h7 : t.month &&& 128 = (t.month.testBit 7).toNat * 128 := by
    have h := Nat.and_two_pow t.month 7
    norm_num at h
    exact h
  have h6 : t.month &&& 64 = (t.month.testBit 6).toNat * 64 := by
    have h := Nat.and_two_pow t.month 6
    norm_num at h
    exact h
  have h5 : t.month &&& 32 = (t.month.testBit 5).toNat * 32 := by
    have h := Nat.and_two_pow t.month 5
    norm_num at h
    exact h
  have f7 : (t.month >>> 7) &&& 1 = (t.month.testBit 7).toNat := by
    rw [Nat.and_one_is_mod, Nat.shiftRight_eq_div_pow, Nat.toNat_testBit]
  have f6 : (t.month >>> 6) &&& 1 = (t.month.testBit 6).toNat := by
    rw [Nat.and_one_is_mod, Nat.shiftRight_eq_div_pow, Nat.toNat_testBit]
  have f5 : (t.month >>> 5) &&& 1 = (t.month.testBit 5).toNat := by
    rw [Nat.and_one_is_mod, Nat.shiftRight_eq_div_pow, Nat.toNat_testBit]
  unfold yearOf
  simp only [BIT_MONTH_CENTURY0, BIT_MONTH_CENTURY1, BIT_MONTH_CENTURY2]
  rw [f7, f6, f5]
  cases hb7 : t.month.testBit 7 <;> cases hb6 : t.month.testBit 6 <;>
    cases hb5 : t.month.testBit 5 <;>
      simp only [h7, h6, h5, hb7, hb6, hb5, Bool.toNat_false, Bool.toNat_true] <;>
      norm_num

/-! ### C10: the temperature registers are constant -/

theorem write_mem_high (t : Registers) (a v : Nat) (ha : 20 ≤ a) :
    write_mem t a v = { t with sram := t.sram.set (a - 20) v } := by
  unfold write_mem
  rw [if_neg (show a ≠ 0 by omega), if_neg (show a ≠ 1 by omega),
      if_neg (show a ≠ 2 by omega), if_neg (show a ≠ 3 by omega),
      if_neg (show a ≠ 4 by omega), if_neg (show a ≠ 5 by omega),
      if_neg (show a ≠ 6 by omega), if_neg (show a ≠ 7 by omega),
      if_neg (show a ≠ 8 by omega), if_neg (show a ≠ 9 by omega),
      if_neg (show a ≠ 10 by omega), if_neg (show a ≠ 11 by omega),
      if_neg (show a ≠ 12 by omega), if_neg (show a ≠ 13 by omega),
      if_neg (show a ≠ 14 by omega), if_neg (show a ≠ 15 by omega),
      if_neg (show a ≠ 16 by omega), if_neg (show a ≠ 17 by omega),
      if_neg (show a ≠ 18 by omega), if_neg (show a ≠ 19 by omega)]

theorem write_mem_temp_msb (t : Registers) (a v : Nat)
    (h17 : a ≠ 17) (h18 : a ≠ 18) : (write_mem t a v).temp_msb = t.temp_msb := by
  rcases Nat.lt_or_ge a 20 with hlt | hge
  · interval_cases a <;> first | omega | rfl
  · rw [write_mem_high t a v hge]

theorem write_mem_temp_lsb (t : Registers) (a v : Nat)
    (h17 : a ≠ 17) (h18 : a ≠ 18) : (write_mem t a v).temp_lsb = t.temp_lsb := by
  rcases Nat.lt_or_ge a 20 with hlt | hge
  · interval_cases a <;> first | omega | rfl
  · rw [write_mem_high t a v hge]

theorem roll_day_date_temp_msb (t : Registers) :
    (roll_day_date t).temp_msb = t.temp_msb := by
  simp only [roll_day_date]
  repeat' split
  all_goals rfl

theorem roll_day_date_temp_lsb (t : Registers) :
    (roll_day_date t).temp_lsb = t.temp_lsb := by
  simp only [roll_day_date]
  repeat' split
  all_goals rfl

theorem increment_time_temp_msb (t : Registers) :
    (increment_time t).temp_msb = t.temp_msb := by
  simp only [increment_time]
  repeat' split
  all_goals first | rfl | rw [roll_day_date_temp_msb]

theorem increment_time_temp_lsb (t : Registers) :
    (increment_time t).temp_lsb = t.temp_lsb := by
  simp only [increment_time]
  repeat' split
  all_goals first | rfl | rw [roll_day_date_temp_lsb]

theorem check_alarms_temp_msb (t : Registers) :
    (check_alarms t).temp_msb = t.temp_msb := by
  simp only [check_alarms]
  repeat' split
  all_goals rfl

theorem check_alarms_temp_lsb (t : Registers) :
    (check_alarms t).temp_lsb = t.temp_lsb := by
  simp only [check_alarms]
  repeat' split
  all_goals rfl

theorem apply_ticks_temps (n : Nat) (t : Registers) :
    (apply_ticks n t).temp_msb = t.temp_msb ∧ (apply_ticks n t).temp_lsb = t.temp_lsb := by
  induction n generalizing t with
  | zero => exact ⟨rfl, rfl⟩
  | succ m ih =>
    have h := ih (tick_step t)
    refine ⟨?_, ?_⟩
    · rw [apply_ticks, h.1, tick_step, check_alarms_temp_msb, increment_time_temp_msb]
    · rw [apply_ticks, h.2, tick_step, check_alarms_temp_lsb, increment_time_temp_lsb]

theorem update_temps (s : Chip) :
    (update s).regs.temp_msb = s.regs.temp_msb ∧
    (update s).regs.temp_lsb = s.regs.temp_lsb := by
  simp only [update]
  split
  · exact (apply_ticks_temps _ _)
  · exact (apply_ticks_temps _ _)

theorem i2c_write_base_default (s : Chip) (a v : Nat) (ha : a = 16 ∨ 20 ≤ a) :
    i2c_write_base s a v =
      (if a < bank_size s.regs then { s with regs := write_mem s.regs a v } else s, 0) := by
  unfold i2c_write_base
  rw [if_neg (show a ≠ 0 by omega), if_neg (show a ≠ 7 by omega),
      if_neg (show ¬(a = 1 ∨ a = 8 ∨ a = 11) by omega),
      if_neg (show ¬(a = 2 ∨ a = 9 ∨ a = 12) by omega),
      if_neg (show a ≠ 3 by omega), if_neg (show a ≠ 4 by omega),
      if_neg (show a ≠ 5 by omega), if_neg (show a ≠ 6 by omega),
      if_neg (show ¬(a = 10 ∨ a = 13) by omega),
      if_neg (show a ≠ 14 by omega), if_neg (show a ≠ 15 by omega),
      if_neg (show a ≠ 19 by omega),
      if_neg (show ¬(a = 17 ∨ a = 18) by omega)]

theorem i2c_write_base_temps (s : Chip) (a v : Nat) :
    ((i2c_write_base s a v).1).regs.temp_msb = s.regs.temp_msb ∧
    ((i2c_write_base s a v).1).regs.temp_lsb = s.regs.temp_lsb := by
  by_cases hd : a = 16 ∨ 20 ≤ a
  · rw [i2c_write_base_default s a v hd]
    rcases Nat.lt_or_ge a (bank_size s.regs) with h | h
    · rw [if_pos h]
      exact ⟨write_mem_temp_msb _ _ _ (by omega) (by omega),
             write_mem_temp_lsb _ _ _ (by omega) (by omega)⟩
    · rw [if_neg (by omega)]
      exact ⟨rfl, rfl⟩
  · have hlt : a < 20 := by omega
    interval_cases a <;> first | omega | exact ⟨rfl, rfl⟩

theorem i2c_write_temps (s : Chip) (a v : Nat) :
    ((i2c_write s a v).1).regs.temp_msb = s.regs.temp_msb ∧
    ((i2c_write s a v).1).regs.temp_lsb = s.regs.temp_lsb := by
  have hb := i2c_write_base_temps s a v
  simp only [i2c_write]
  split
  · refine ⟨?_, ?_⟩
    · rw [write_mem_temp_msb _ _ _ (by omega) (by omega)]
      exact hb.1
    · rw [write_mem_temp_lsb _ _ _ (by omega) (by omega)]
      exact hb.2
  · exact hb

/-- C10: in every state reachable from `reset()` by ticks, updates,
oscillator-stop-flag sets and arbitrary i2c writes, the temperature
registers read back as the sentinel 0xFF / 0xC0; `reset()` establishes
them and no operation modifies them. -/
theorem temp_registers_invariant (s : Chip) (h : Reachable s) :
    i2c_read s 17 = 255 ∧ i2c_read s 18 = 192 := by
  have core : temps_ok s.regs := by
    induction h with
    | from_reset sram0 => exact ⟨rfl, rfl⟩
    | step_tick _ ih => exact ih
    | step_update _ ih =>
      exact ⟨by rw [(update_temps _).1]; exact ih.1, by rw [(update_temps _).2]; exact ih.2⟩
    | step_osf _ ih => exact ih
    | step_write addr v _ ih =>
      exact ⟨by rw [(i2c_write_temps _ _ _).1]; exact ih.1,
             by rw [(i2c_write_temps _ _ _).2]; exact ih.2⟩
  constructor
  · unfold i2c_read
    rw [if_neg (show ¬ bank_size s.regs ≤ 17 by unfold bank_size; omega)]
    exact core.1
  · unfold i2c_read
    rw [if_neg (show ¬ bank_size s.regs ≤ 18 by unfold bank_size; omega)]
    exact core.2

/-- C10 witness: the reset state itself. -/
theorem temp_registers_invariant_witness :
    i2c_read (reset []) 17 = 255 ∧ i2c_read (reset []) 18 = 192 :=
  temp_registers_invariant (reset []) (Reachable.from_reset [])

/-! ### C2: alarm flag transitions -/

theorem or1_and1 (x : Nat) : (x ||| 1) &&& 1 = 1 := by
  rw [Nat.and_distrib_right]
  rcases and1_cases x with h | h <;> rw [h] <;> decide

theorem or2_and1 (x : Nat) : (x ||| 2) &&& 1 = x &&& 1 := by
  rw [Nat.and_distrib_right]
  rcases and1_cases x with h | h <;> rw [h] <;> decide

theorem or1_and2 (x : Nat) : (x ||| 1) &&& 2 = x &&& 2 := by
  rw [Nat.and_distrib_right]
  rcases and2_cases x with h | h <;> rw [h] <;> decide

theorem or2_and2 (x : Nat) : (x ||| 2) &&& 2 = 2 := by
  rw [Nat.and_distrib_right]
  rcases and2_cases x with h | h <;> rw [h] <;> decide

theorem alarm1_fires_iff (t : Registers) :
    alarm1_fires t = true ↔
      t.ctrl_2 &&& BIT_CTRL_2_A1F = 0 ∧ alarm1_matches_spec t := by
  simp only [alarm1_fires, alarm1_matches_spec]
  by_cases hdy : t.alarm_1_day_or_date &&& BIT_ALARM_IS_DAY = 0
  · simp [hdy, Bool.and_eq_true, Bool.or_eq_true, Bool.not_eq_true', bne_iff_ne,
      beq_iff_eq, bne_eq_false_iff_eq]
    tauto
  · simp [hdy, Bool.and_eq_true, Bool.or_eq_true, Bool.not_eq_true', bne_iff_ne,
      beq_iff_eq, bne_eq_false_iff_eq]
    tauto

theorem alarm2_fires_iff (t : Registers) :
    alarm2_fires t = true ↔
      t.ctrl_2 &&& BIT_CTRL_2_A2F = 0 ∧ t.seconds &&& MASK_SECONDS = 0 ∧
        alarm2_matches_spec t := by
  simp only [alarm2_fires, alarm2_matches_spec]
  by_cases hdy : t.alarm_2_day_or_date &&& BIT_ALARM_IS_DAY = 0
  · simp [hdy, Bool.and_eq_true, Bool.or_eq_true, Bool.not_eq_true', bne_iff_ne,
      beq_iff_eq, bne_eq_false_iff_eq]
    tauto
  · simp [hdy, Bool.and_eq_true, Bool.or_eq_true, Bool.not_eq_true', bne_iff_ne,
      beq_iff_eq, bne_eq_false_iff_eq]
    tauto

theorem check_alarms_ctrl_2 (t : Registers) :
    (check_alarms t).ctrl_2 =
      (if alarm2_fires t then
        (if alarm1_fires t then t.ctrl_2 ||| BIT_CTRL_2_A1F else t.ctrl_2) ||| BIT_CTRL_2_A2F
       else
        (if alarm1_fires t then t.ctrl_2 ||| BIT_CTRL_2_A1F else t.ctrl_2)) := by
  simp only [check_alarms]
  by_cases h1 : alarm1_fires t <;> by_cases h2 : alarm2_fires t <;> simp [h1, h2]

theorem and_or_mono (x y m : Nat) : x &&& m ≤ (x ||| y) &&& m := by
  apply Nat.le_of_testBit
  intro i h
  rw [Nat.testBit_and] at h ⊢
  rw [Nat.testBit_or]
  simp only [Bool.and_eq_true] at h
  simp [h.1, h.2]

theorem check_alarms_ctrl_2_mono (t : Registers) (m : Nat) :
    t.ctrl_2 &&& m ≤ (check_alarms t).ctrl_2 &&& m := by
  rw [check_alarms_ctrl_2]
  by_cases h2 : alarm2_fires t
  · rw [if_pos h2]
    by_cases h1 : alarm1_fires t
    · rw [if_pos h1, Nat.or_assoc]
      exact and_or_mono _ _ _
    · rw [if_neg h1]
      exact and_or_mono _ _ _
  · rw [if_neg h2]
    by_cases h1 : alarm1_fires t
    · rw [if_pos h1]
      exact and_or_mono _ _ _
    · rw [if_neg h1]

theorem roll_day_date_ctrl_2 (t : Registers) :
    (roll_day_date t).ctrl_2 = t.ctrl_2 := by
  simp only [roll_day_date]
  repeat' split
  all_goals rfl

theorem increment_time_ctrl_2 (t : Registers) :
    (increment_time t).ctrl_2 = t.ctrl_2 := by
  simp only [increment_time]
  repeat' split
  all_goals first | rfl | rw [roll_day_date_ctrl_2]

theorem apply_ticks_ctrl_2_mono (n : Nat) (t : Registers) (m : Nat) :
    t.ctrl_2 &&& m ≤ (apply_ticks n t).ctrl_2 &&& m := by
  induction n generalizing t with
  | zero => exact Nat.le_refl _
  | succ k ih =>
    calc t.ctrl_2 &&& m
        = (increment_time t).ctrl_2 &&& m := by rw [increment_time_ctrl_2]
      _ ≤ (check_alarms (increment_time t)).ctrl_2 &&& m := check_alarms_ctrl_2_mono _ _
      _ ≤ (apply_ticks k (tick_step t)).ctrl_2 &&& m := ih (tick_step t)
      _ = (apply_ticks (k + 1) t).ctrl_2 &&& m := rfl

theorem update_ctrl_2_mono (s : Chip) (m : Nat) :
    s.regs.ctrl_2 &&& m ≤ (update s).regs.ctrl_2 &&& m := by
  simp only [update]
  have hc : (if s.wrote_date then canonicalise_date s.regs else s.regs).ctrl_2 =
      s.regs.ctrl_2 := by
    split <;> rfl
  calc s.regs.ctrl_2 &&& m
      = (if s.wrote_date then canonicalise_date s.regs else s.regs).ctrl_2 &&& m := by rw [hc]
    _ ≤ _ := apply_ticks_ctrl_2_mono _ _ _

theorem check_alarms_a1f_bit (t : Registers) :
    (check_alarms t).ctrl_2 &&& BIT_CTRL_2_A1F =
      if alarm1_fires t then 1 else t.ctrl_2 &&& BIT_CTRL_2_A1F := by
  rw [check_alarms_ctrl_2]
  by_cases h2 : alarm2_fires t
  · rw [if_pos h2]
    by_cases h1 : alarm1_fires t
    · rw [if_pos h1, if_pos h1]
      simp only [BIT_CTRL_2_A1F, BIT_CTRL_2_A2F]
      rw [or2_and1, or1_and1]
    · rw [if_neg h1, if_neg h1]
      simp only [BIT_CTRL_2_A1F, BIT_CTRL_2_A2F]
      rw [or2_and1]
  · rw [if_neg h2]
    by_cases h1 : alarm1_fires t
    · rw [if_pos h1, if_pos h1]
      simp only [BIT_CTRL_2_A1F]
      rw [or1_and1]
    · rw [if_neg h1, if_neg h1]

theorem check_alarms_a2f_bit (t : Registers) :
    (check_alarms t).ctrl_2 &&& BIT_CTRL_2_A2F =
      if alarm2_fires t then 2 else t.ctrl_2 &&& BIT_CTRL_2_A2F := by
  rw [check_alarms_ctrl_2]
  by_cases h2 : alarm2_fires t
  · rw [if_pos h2, if_pos h2]
    by_cases h1 : alarm1_fires t
    · rw [if_pos h1]
      simp only [BIT_CTRL_2_A1F, BIT_CTRL_2_A2F]
      rw [or2_and2]
    · rw [if_neg h1]
      simp only [BIT_CTRL_2_A2F]
      rw [or2_and2]
  · rw [if_neg h2, if_neg h2]
    by_cases h1 : alarm1_fires t
    · rw [if_pos h1]
      simp only [BIT_CTRL_2_A1F, BIT_CTRL_2_A2F]
      rw [or1_and2]
    · rw [if_neg h1]

/-- C2: for every register state, a tick's `check_alarms` makes A1F go
from 0 to 1 exactly when A1F was clear and every unmasked alarm-1 field
matches the time (masked-BCD comparison, bit 6 choosing day vs date);
A2F likewise with the extra seconds == 0 requirement; and neither
`check_alarms` nor `update` ever lowers either flag bit. -/
theorem alarm_flag_transitions (t : Registers) (s : Chip) :
    ((check_alarms t).ctrl_2 &&& BIT_CTRL_2_A1F ≠ 0 ∧ t.ctrl_2 &&& BIT_CTRL_2_A1F = 0 ↔
       t.ctrl_2 &&& BIT_CTRL_2_A1F = 0 ∧ alarm1_matches_spec t) ∧
    ((check_alarms t).ctrl_2 &&& BIT_CTRL_2_A2F ≠ 0 ∧ t.ctrl_2 &&& BIT_CTRL_2_A2F = 0 ↔
       t.ctrl_2 &&& BIT_CTRL_2_A2F = 0 ∧ t.seconds &&& MASK_SECONDS = 0 ∧
         alarm2_matches_spec t) ∧
    (t.ctrl_2 &&& BIT_CTRL_2_A1F ≤ (check_alarms t).ctrl_2 &&& BIT_CTRL_2_A1F) ∧
    (t.ctrl_2 &&& BIT_CTRL_2_A2F ≤ (check_alarms t).ctrl_2 &&& BIT_CTRL_2_A2F) ∧
    (s.regs.ctrl_2 &&& BIT_CTRL_2_A1F ≤ (update s).regs.ctrl_2 &&& BIT_CTRL_2_A1F) ∧
    (s.regs.ctrl_2 &&& BIT_CTRL_2_A2F ≤ (update s).regs.ctrl_2 &&& BIT_CTRL_2_A2F) := by
  refine ⟨?_, ?_, check_alarms_ctrl_2_mono _ _, check_alarms_ctrl_2_mono _ _,
          update_ctrl_2_mono _ _, update_ctrl_2_mono _ _⟩
  · rw [check_alarms_a1f_bit]
    by_cases h1 : alarm1_fires t
    · rw [if_pos h1]
      have hm := (alarm1_fires_iff t).1 h1
      exact ⟨fun h => ⟨h.2, hm.2⟩, fun h => ⟨one_ne_zero, h.1⟩⟩
    · rw [if_neg h1]
      constructor
      · rintro ⟨hne, h0⟩
        exact absurd h0 hne
      · rintro ⟨h0, hm⟩
        exact absurd ((alarm1_fires_iff t).2 ⟨h0, hm⟩) h1
  · rw [check_alarms_a2f_bit]
    by_cases h2 : alarm2_fires t
    · rw [if_pos h2]
      have hm := (alarm2_fires_iff t).1 h2
      exact ⟨fun h => ⟨h.2, hm.2.1, hm.2.2⟩, fun h => ⟨two_ne_zero, h.1⟩⟩
    · rw [if_neg h2]
      constructor
      · rintro ⟨hne, h0⟩
        exact absurd h0 hne
      · rintro ⟨h0, hs, hm⟩
        exact absurd ((alarm2_fires_iff t).2 ⟨h0, hs, hm⟩) h2

/-! ### C4: 12-hour mode hour advance -/

theorem monthOf_mk (a1 a2 a3 a4 a5 a6 a7 a8 a9 a10 a11 a12 a13 a14 a15 a16 a17 a18 a19 a20 : Nat)
    (a21 : List Nat) :
    monthOf ⟨a1, a2, a3, a4, a5, a6, a7, a8, a9, a10, a11, a12, a13, a14, a15, a16, a17,
             a18, a19, a20, a21⟩ = bcd_dec (a6 &&& MASK_MONTH) := rfl

theorem yearOf_mk (a1 a2 a3 a4 a5 a6 a7 a8 a9 a10 a11 a12 a13 a14 a15 a16 a17 a18 a19 a20 : Nat)
    (a21 : List Nat) :
    yearOf ⟨a1, a2, a3, a4, a5, a6, a7, a8, a9, a10, a11, a12, a13, a14, a15, a16, a17,
            a18, a19, a20, a21⟩ =
      (let y := 1900 + bcd_dec (a7 &&& MASK_YEAR)
       let y := if a6 &&& BIT_MONTH_CENTURY0 ≠ 0 then y + 100 else y
       let y := if a6 &&& BIT_MONTH_CENTURY1 ≠ 0 then y + 200 else y
       if a6 &&& BIT_MONTH_CENTURY2 ≠ 0 then y + 400 else y) := rfl

set_option maxHeartbeats 1000000 in
theorem roll_day_date_smh (t : Registers) (a b c : Nat) :
    roll_day_date { t with seconds := a, minutes := b, hours := c } =
      { roll_day_date t with seconds := a, minutes := b, hours := c } := by
  simp only [roll_day_date, monthOf_mk, yearOf_mk]
  repeat' split
  all_goals rfl

set_option maxHeartbeats 10000000 in
/-- C4: in 12-hour mode (hours bit 6 set, PM = bit 5, with bit 7
arbitrary), when the seconds and minutes carry, the BCD hour advances
within 1..=12 (the BCD values 1..9, 0x10, 0x11, 0x12): a normal advance
keeps PM and does not touch day/date/month/year; past 12 (0x12) the hour
wraps to 1 with no day advance; on the 11 -> 12 edge the PM bit toggles,
and the day/date (and onward) roll exactly when PM became 0, i.e. when the
old PM bit was set. -/
theorem twelve_hour_mode_advance (t : Registers) (b7 p : Bool) (v : Nat)
    (hv : v = 1 ∨ v = 2 ∨ v = 3 ∨ v = 4 ∨ v = 5 ∨ v = 6 ∨ v = 7 ∨ v = 8 ∨ v = 9 ∨
          v = 16 ∨ v = 17 ∨ v = 18)
    (hsec : t.seconds &&& MASK_SECONDS = 89)
    (hmin : t.minutes &&& MASK_MINUTES = 89)
    (hh : t.hours = (if b7 then 128 else 0) + 64 + (if p then 32 else 0) + v) :
    ((v ≠ 17 ∧ v ≠ 18) →
        ((increment_time t).hours = (if b7 then 128 else 0) + 64 + (if p then 32 else 0) +
            (if v = 9 then 16 else v + 1) ∧
         (increment_time t).day = t.day ∧ (increment_time t).date = t.date ∧
         (increment_time t).month = t.month ∧ (increment_time t).year = t.year)) ∧
    (v = 18 →
        ((increment_time t).hours = (if b7 then 128 else 0) + 64 + (if p then 32 else 0) + 1 ∧
         (increment_time t).day = t.day ∧ (increment_time t).date = t.date ∧
         (increment_time t).month = t.month ∧ (increment_time t).year = t.year)) ∧
    (v = 17 →
        ((increment_time t).hours = (if b7 then 128 else 0) + 64 + (if p then 0 else 32) + 18 ∧
         (p = true →
            (increment_time t).day = (roll_day_date t).day ∧
            (increment_time t).date = (roll_day_date t).date ∧
            (increment_time t).month = (roll_day_date t).month ∧
            (increment_time t).year = (roll_day_date t).year) ∧
         (p = false →
            (increment_time t).day = t.day ∧ (increment_time t).date = t.date ∧
            (increment_time t).month = t.month ∧ (increment_time t).year = t.year))) := by
  rcases hv with rfl | rfl | rfl | rfl | rfl | rfl | rfl | rfl | rfl | rfl | rfl | rfl <;>
    cases b7 <;> cases p <;>
      simp +decide [increment_time, increment_bcd, hsec, hmin, hh, roll_day_date_smh]

/-- C4 witness at 11:59:59 PM: the hour becomes 12, PM flips to 0 and the
day/date roll over. -/
theorem twelve_hour_mode_advance_witness :
    ((17 ≠ 17 ∧ 17 ≠ 18) →
        ((increment_time regs12h).hours = (if false then 128 else 0) + 64 +
            (if true then 32 else 0) + (if 17 = 9 then 16 else 17 + 1) ∧
         (increment_time regs12h).day = regs12h.day ∧
         (increment_time regs12h).date = regs12h.date ∧
         (increment_time regs12h).month = regs12h.month ∧
         (increment_time regs12h).year = regs12h.year)) ∧
    (17 = 18 →
        ((increment_time regs12h).hours = (if false then 128 else 0) + 64 +
            (if true then 32 else 0) + 1 ∧
         (increment_time regs12h).day = regs12h.day ∧
         (increment_time regs12h).date = regs12h.date ∧
         (increment_time regs12h).month = regs12h.month ∧
         (increment_time regs12h).year = regs12h.year)) ∧
    (17 = 17 →
        ((increment_time regs12h).hours = (if false then 128 else 0) + 64 +
            (if true then 0 else 32) + 18 ∧
         (true = true →
            (increment_time regs12h).day = (roll_day_date regs12h).day ∧
            (increment_time regs12h).date = (roll_day_date regs12h).date ∧
            (increment_time regs12h).month = (roll_day_date regs12h).month ∧
            (increment_time regs12h).year = (roll_day_date regs12h).year) ∧
         (true = false →
            (increment_time regs12h).day = regs12h.day ∧
            (increment_time regs12h).date = regs12h.date ∧
            (increment_time regs12h).month = regs12h.month ∧
            (increment_time regs12h).year = regs12h.year))) :=
  twelve_hour_mode_advance regs12h false true 17 (by decide) (by decide) (by decide) (by decide)
